import Mathlib

/-!
Verification of the blink-detection core of `src/desktop/eye_tracker.py`
(class `EyeTracker` plus the module-level helpers `euclidean_dist` and
`eye_aspect_ratio`).

Embedding conventions:
* Python floats are modelled exactly as rationals (`ℚ`) for the state
  machine, and as reals (`ℝ`) for the landmark geometry (which involves
  square roots).
* Python code that can raise (list indexing with a missing index) is
  modelled with `Option`: `none` stands for the raised `IndexError`.
* `datetime` instants are modelled as rational numbers of seconds;
  `(a - b).total_seconds()` becomes plain subtraction.  The wall-clock
  reads (`datetime.utcnow()`) are passed in as explicit parameters.
* `results.multi_face_landmarks` being empty (no face detected) is
  modelled as the `none` case of the optional per-frame observation; a
  detected face is reduced to the raw EAR value it produces (computed by
  `eye_aspect_ratio` / `frame_raw_ear` below), which is the only datum
  the state machine consumes.
-/

namespace EyeTrackerSpec

/-- `euclidean_dist` (eye_tracker.py lines 30-32): `np.linalg.norm` of the
difference of two 2-D points. -/
noncomputable def euclidean_dist (p q : ℝ × ℝ) : ℝ :=
  Real.sqrt ((p.1 - q.1) ^ 2 + (p.2 - q.2) ^ 2)

/-- `eye_aspect_ratio` (lines 35-44): `A = dist(e[1], e[5])`,
`B = dist(e[2], e[4])`, `C = dist(e[0], e[3])`, `ear = (A + B) / (2*C)`.
List indexing is modelled with `Option`; `none` models the `IndexError`
raised when the landmark list is too short.  Indices are read in the
source's evaluation order. -/
noncomputable def eye_aspect_ratio (eye : List (ℝ × ℝ)) : Option ℝ := do
  let e1 ← eye[1]?
  let e5 ← eye[5]?
  let e2 ← eye[2]?
  let e4 ← eye[4]?
  let e0 ← eye[0]?
  let e3 ← eye[3]?
  return (euclidean_dist e1 e5 + euclidean_dist e2 e4) / (2 * euclidean_dist e0 e3)

/-- The spec's own formula (§4.1 step 1), written from the spec's words:
`EAR = (|p2−p6| + |p3−p5|) / (2 · |p1−p4|)` where `p1 … p6` are the six
landmark points in their fixed anatomical order. -/
noncomputable def spec_ear (p1 p2 p3 p4 p5 p6 : ℝ × ℝ) : ℝ :=
  (euclidean_dist p2 p6 + euclidean_dist p3 p5) / (2 * euclidean_dist p1 p4)

/-- Lines 195-197: per-eye EARs averaged into the frame's raw EAR. -/
noncomputable def frame_raw_ear (left_eye right_eye : List (ℝ × ℝ)) : Option ℝ := do
  let left_ear ← eye_aspect_ratio left_eye
  let right_ear ← eye_aspect_ratio right_eye
  return (left_ear + right_ear) / 2

/-- The mutable attributes of the Python `EyeTracker` object that the
blink-detection logic reads or writes (threading/camera handles omitted:
they never interact with the detection state machine). -/
structure EyeTracker where
  ear_threshold : ℚ
  consecutive_frames : ℕ
  min_blink_interval_s : ℚ
  open_frames_required : ℕ
  hysteresis_delta : ℚ
  open_threshold : ℚ
  smooth_window : ℕ
  blink_count : ℕ
  frame_counter : ℕ
  is_running : Bool
  ear_history : List ℚ
  eye_closed : Bool
  closed_frames : ℕ
  open_frames : ℕ
  session_start : Option ℚ
  last_blink_time : Option ℚ

/-- `EyeTracker.__init__` (lines 53-104).  Source defaults:
`ear_threshold = 0.21`, `consecutive_frames = 2`,
`min_blink_interval_s = 0.35`, `open_frames_required = 2`,
`hysteresis_delta = 0.03`, `smooth_window = 3`.  The constructor stores
`open_threshold = ear_threshold + hysteresis_delta` and
`smooth_window = max(1, int(smooth_window))`; the parameter is declared
`int`, and `int()` on an integer is the identity, so we take `sw : ℤ`
and clamp with `max 1`. -/
def EyeTracker.init (thr : ℚ) (cf : ℕ) (mbi : ℚ) (ofr : ℕ) (hd : ℚ) (sw : ℤ) :
    EyeTracker where
  ear_threshold := thr
  consecutive_frames := cf
  min_blink_interval_s := mbi
  open_frames_required := ofr
  hysteresis_delta := hd
  open_threshold := thr + hd
  smooth_window := (max 1 sw).toNat
  blink_count := 0
  frame_counter := 0
  is_running := false
  ear_history := []
  eye_closed := false
  closed_frames := 0
  open_frames := 0
  session_start := none
  last_blink_time := none

/-- Appending to `collections.deque(maxlen := n)`: the new sample goes on
the right and the leftmost (oldest) samples beyond capacity are evicted. -/
def deque_append (maxlen : ℕ) (xs : List ℚ) (x : ℚ) : List ℚ :=
  let ys := xs ++ [x]
  ys.drop (ys.length - maxlen)

/-- Lines 198-201: the smoothed EAR is `np.mean` of the history *after*
appending the new raw sample, with the source's (dead) fallback to the
raw value for an empty history. -/
def smoothed_ear (t : EyeTracker) (ear_raw : ℚ) : ℚ :=
  let history := deque_append t.smooth_window t.ear_history ear_raw
  if history = [] then ear_raw else history.sum / (history.length : ℚ)

/-- Lines 222-226: the refractory-period test
`last_blink_time is None or (current_time - last_blink_time).total_seconds() >= min_blink_interval_s`. -/
def refractory_ok (t : EyeTracker) (current_time : ℚ) : Bool :=
  match t.last_blink_time with
  | none => true
  | some lbt => decide (t.min_blink_interval_s ≤ current_time - lbt)

/-- The dict returned by `_process_frame` (lines 242-252). -/
structure FrameResult where
  timestamp : ℚ
  blink_count : ℕ
  blink_detected : Bool
  session_duration : ℚ
  last_blink_time : Option ℚ

/-- Building the returned dict from the (already updated) tracker state. -/
def mkResult (t : EyeTracker) (blink_detected : Bool) (current_time : ℚ) :
    FrameResult where
  timestamp := current_time
  blink_count := t.blink_count
  blink_detected := blink_detected
  session_duration :=
    match t.session_start with
    | some s => current_time - s
    | none => 0
  last_blink_time := t.last_blink_time

/-- Lines 194-252, the face-detected path of `_process_frame`: append the
raw EAR to the history, smooth, then run the hysteresis/refractory state
machine, and build the result dict from the final state.  Config fields
(thresholds, required streak lengths, interval, window size) are never
written, so they are read off `t` directly. -/
def process_ear (t : EyeTracker) (ear_raw current_time : ℚ) :
    EyeTracker × FrameResult :=
  let history := deque_append t.smooth_window t.ear_history ear_raw
  let ear := smoothed_ear t ear_raw
  if ear < t.ear_threshold then
    let t2 : EyeTracker :=
      { t with ear_history := history,
               closed_frames := t.closed_frames + 1, open_frames := 0 }
    let t3 : EyeTracker :=
      if t2.eye_closed = false ∧ t.consecutive_frames ≤ t2.closed_frames then
        { t2 with eye_closed := true }
      else t2
    (t3, mkResult t3 false current_time)
  else if t.open_threshold < ear then
    let t2 : EyeTracker :=
      { t with ear_history := history,
               open_frames := t.open_frames + 1, closed_frames := 0 }
    if t2.eye_closed = true ∧ t.open_frames_required ≤ t2.open_frames then
      if refractory_ok t current_time then
        let t3 : EyeTracker :=
          { t2 with blink_count := t2.blink_count + 1,
                    last_blink_time := some current_time, eye_closed := false }
        (t3, mkResult t3 true current_time)
      else
        let t3 : EyeTracker := { t2 with eye_closed := false }
        (t3, mkResult t3 false current_time)
    else
      (t2, mkResult t2 false current_time)
  else
    let t1 : EyeTracker := { t with ear_history := history }
    (t1, mkResult t1 false current_time)

/-- `_process_frame` (lines 167-252): `some er` is a frame whose detected
face produced raw EAR `er`; `none` is a frame with no detected face, which
skips the whole landmark block and returns the dict built from the
unchanged state (with `blink_detected = False`). -/
def process_frame (t : EyeTracker) (obs : Option ℚ) (current_time : ℚ) :
    EyeTracker × FrameResult :=
  match obs with
  | some ear_raw => process_ear t ear_raw current_time
  | none => (t, mkResult t false current_time)

/-- `reset_session` (lines 271-276). -/
def reset_session (t : EyeTracker) (now : ℚ) : EyeTracker :=
  { t with blink_count := 0
           frame_counter := 0
           session_start := if t.is_running then some now else none
           last_blink_time := none }

/-- Folding `process_frame` over a list of (observation, capture time)
frames. -/
def run (t : EyeTracker) : List (Option ℚ × ℚ) → EyeTracker
  | [] => t
  | (obs, ct) :: rest => run (process_frame t obs ct).1 rest

/-- `run` specialised to frames that all have a detected face. -/
def runFrames (t : EyeTracker) : List (ℚ × ℚ) → EyeTracker
  | [] => t
  | (er, ct) :: rest => runFrames (process_frame t (some er) ct).1 rest

/-- Every frame of the list has its smoothed EAR strictly inside the
hysteresis dead zone of the state that processes it. -/
def runInDeadZone : EyeTracker → List (ℚ × ℚ) → Bool
  | _, [] => true
  | t, (er, ct) :: rest =>
    (decide (t.ear_threshold < smoothed_ear t er) &&
      decide (smoothed_ear t er < t.open_threshold)) &&
      runInDeadZone (process_frame t (some er) ct).1 rest

/-- Every frame of the list has its smoothed EAR within `[lo, hi]` at the
state that processes it. -/
def runWithin (lo hi : ℚ) : EyeTracker → List (ℚ × ℚ) → Bool
  | _, [] => true
  | t, (er, ct) :: rest =>
    (decide (lo ≤ smoothed_ear t er) && decide (smoothed_ear t er ≤ hi)) &&
      runWithin lo hi (process_frame t (some er) ct).1 rest

/-- The implicit invariant of the streak counters: they are never both
positive. -/
def streak_inv (t : EyeTracker) : Prop :=
  t.closed_frames = 0 ∨ t.open_frames = 0

/-- A concrete tracker that is mid-blink: eye classified closed, one open
frame already seen, no prior blink (thresholds 1 / 2, window size 1). -/
def t_wit : EyeTracker :=
  { EyeTracker.init 1 2 1 2 1 1 with eye_closed := true, open_frames := 1 }

/-- A concrete tracker mid-closing-streak (one closed frame seen). -/
def t_cex : EyeTracker :=
  { EyeTracker.init 1 2 1 2 1 3 with closed_frames := 1 }

/-- A concrete tracker with close threshold 1 and open threshold 3. -/
def t_dead : EyeTracker := EyeTracker.init 1 2 1 2 2 1

/-- A concrete tracker with close threshold 2, hysteresis delta 1. -/
def t_osc : EyeTracker := EyeTracker.init 2 2 1 2 1 1

/-- Two qualifying blink sequences (two closed frames then two open
frames, twice over), the second completing 0.4 s after the first — inside
a 0.5 s refractory period. -/
def two_blink_seq : List (ℚ × ℚ) :=
  [(1/10, 0), (1/10, 1/10), (3/10, 2/10), (3/10, 3/10),
   (1/10, 4/10), (1/10, 5/10), (3/10, 6/10), (3/10, 7/10)]

/-! ### Helper lemmas -/

lemma deque_append_length (n : ℕ) (xs : List ℚ) (x : ℚ) :
    (deque_append n xs x).length = min (xs.length + 1) n := by
  simp only [deque_append, List.length_drop, List.length_append, List.length_cons,
    List.length_nil]
  omega

lemma process_frame_fst_history (t : EyeTracker) (er ct : ℚ) :
    (process_frame t (some er) ct).1.ear_history =
      deque_append t.smooth_window t.ear_history er := by
  simp only [process_frame, process_ear]
  split_ifs <;> rfl

lemma process_frame_dead (t : EyeTracker) (er ct : ℚ)
    (h1 : ¬ smoothed_ear t er < t.ear_threshold)
    (h2 : ¬ t.open_threshold < smoothed_ear t er) :
    process_frame t (some er) ct =
      ({ t with ear_history := deque_append t.smooth_window t.ear_history er },
        mkResult { t with ear_history := deque_append t.smooth_window t.ear_history er }
          false ct) := by
  simp only [process_frame, process_ear]
  rw [if_neg h1, if_neg h2]

lemma process_frame_not_open (t : EyeTracker) (er ct : ℚ)
    (h : ¬ t.open_threshold < smoothed_ear t er) :
    (process_frame t (some er) ct).1.blink_count = t.blink_count ∧
    (process_frame t (some er) ct).1.open_threshold = t.open_threshold := by
  simp only [process_frame, process_ear]
  split_ifs <;> simp_all

/-! ### Claims -/

/-- C2 counterexample: on a tracker whose closed-frame streak is 1,
`reset_session` leaves the streak counters untouched, so the claim that it
"clears the frame streak counters" is false. -/
theorem reset_session_cex :
    ¬ ((reset_session t_cex 5).closed_frames = 0 ∧
        (reset_session t_cex 5).open_frames = 0) := by
  with_unfolding_all decide

/-- C2 (amended): `reset_session` zeroes `blink_count`, clears
`last_blink_time`, re-stamps `session_start` to now exactly when tracking
is active (clearing it otherwise) and zeroes `frame_counter`, but leaves
the streak counters, the eye-closed flag and the smoothing window
unchanged. -/
theorem reset_session_behavior (t : EyeTracker) (now : ℚ) :
    (reset_session t now).blink_count = 0 ∧
    (reset_session t now).last_blink_time = none ∧
    (reset_session t now).session_start =
      (if t.is_running then some now else none) ∧
    (reset_session t now).frame_counter = 0 ∧
    (reset_session t now).closed_frames = t.closed_frames ∧
    (reset_session t now).open_frames = t.open_frames ∧
    (reset_session t now).eye_closed = t.eye_closed ∧
    (reset_session t now).ear_history = t.ear_history :=
  ⟨rfl, rfl, rfl, rfl, rfl, rfl, rfl, rfl⟩

/-- C3 counterexample: on a five-point landmark list the EAR computation
fails (the source raises `IndexError`, modelled as `none`), rather than
the frame being skipped with a normal no-observation result. -/
theorem eye_aspect_ratio_short_cex :
    eye_aspect_ratio [((0:ℝ), (0:ℝ)), (0, 0), (0, 0), (0, 0), (0, 0)] = none := rfl

/-- C3 (amended): malformed landmark input is not handled like a missing
face: with fewer than six points the EAR computation fails outright
(raises, modelled as `none`), and every face-detected frame — however
degenerate its geometry — still appends its raw EAR to the smoothing
window, mutating state instead of skipping the frame. -/
theorem malformed_input_not_skipped :
    (∀ eye : List (ℝ × ℝ), eye.length < 6 → eye_aspect_ratio eye = none) ∧
    (∀ (t : EyeTracker) (er ct : ℚ), t.ear_history.length < t.smooth_window →
      (process_frame t (some er) ct).1.ear_history ≠ t.ear_history) := by
  constructor
  · intro eye h
    rcases eye with _ | ⟨a, _ | ⟨b, _ | ⟨c, _ | ⟨d, _ | ⟨e, _ | ⟨f, rest⟩⟩⟩⟩⟩⟩
    · rfl
    · rfl
    · rfl
    · rfl
    · rfl
    · rfl
    · simp only [List.length_cons] at h
      omega
  · intro t er ct h heq
    rw [process_frame_fst_history] at heq
    have hlen := congrArg List.length heq
    rw [deque_append_length] at hlen
    omega

/-- C3 amended, witness. -/
theorem malformed_input_not_skipped_w :
    eye_aspect_ratio [((0:ℝ), (0:ℝ)), (1, 0), (2, 0), (3, 0), (4, 0)] = none ∧
    (process_frame t_cex (some 1) 0).1.ear_history ≠ t_cex.ear_history :=
  ⟨malformed_input_not_skipped.1 _ (by decide),
    malformed_input_not_skipped.2 t_cex 1 0 (by with_unfolding_all decide)⟩

/-- C4: a no-face frame leaves the whole tracker state unchanged and
returns a no-observation result (`blink_detected = false`, `blink_count`
as before); hence interleaving no-face frames into any frame sequence
yields the same final state as the sequence without them. -/
theorem no_face_frame_neutral (t : EyeTracker) (ct : ℚ)
    (frames : List (Option ℚ × ℚ)) :
    (process_frame t none ct).1 = t ∧
    (process_frame t none ct).2.blink_detected = false ∧
    (process_frame t none ct).2.blink_count = t.blink_count ∧
    run t frames = run t (frames.filter fun f => f.1.isSome) := by
  refine ⟨rfl, rfl, rfl, ?_⟩
  induction frames generalizing t with
  | nil => rfl
  | cons f rest ih =>
    obtain ⟨obs, ct2⟩ := f
    cases obs with
    | none => simpa [run, List.filter] using ih t
    | some er =>
      simp only [run, List.filter, Option.isSome]
      exact ih _

/-- C5: the source's per-eye EAR on a well-formed six-point landmark set
is exactly the spec's formula `(|p2−p6| + |p3−p5|) / (2·|p1−p4|)` with
Euclidean distances, and the frame's raw EAR is the arithmetic mean of
the left-eye and right-eye values. -/
theorem ear_formula_refines_spec
    (p1 p2 p3 p4 p5 p6 q1 q2 q3 q4 q5 q6 : ℝ × ℝ) :
    eye_aspect_ratio [p1, p2, p3, p4, p5, p6] =
      some (spec_ear p1 p2 p3 p4 p5 p6) ∧
    frame_raw_ear [p1, p2, p3, p4, p5, p6] [q1, q2, q3, q4, q5, q6] =
      some ((spec_ear p1 p2 p3 p4 p5 p6 + spec_ear q1 q2 q3 q4 q5 q6) / 2) :=
  ⟨rfl, rfl⟩

/-- C10: the constructor clamps the configured smoothing-window size to
`max 1 ⌊smooth_window⌋`, so the effective capacity is at least 1 for every
configured value (zero and negatives included); consequently the first
landmark frame leaves a one-sample window and the smoothed EAR is the
mean over that non-empty window. -/
theorem smooth_window_clamped (thr mbi hd : ℚ) (cf ofr : ℕ) (sw : ℤ)
    (er ct : ℚ) :
    (EyeTracker.init thr cf mbi ofr hd sw).smooth_window = (max 1 sw).toNat ∧
    1 ≤ (EyeTracker.init thr cf mbi ofr hd sw).smooth_window ∧
    (process_frame (EyeTracker.init thr cf mbi ofr hd sw) (some er) ct).1.ear_history
      = [er] ∧
    smoothed_ear (EyeTracker.init thr cf mbi ofr hd sw) er =
      ([er].sum / (([er].length : ℕ) : ℚ)) := by
  have hone : 1 ≤ (max 1 sw).toNat := by
    have h1 : (1:ℤ) ≤ max 1 sw := le_max_left _ _
    omega
  have hhist :
      deque_append (EyeTracker.init thr cf mbi ofr hd sw).smooth_window
        (EyeTracker.init thr cf mbi ofr hd sw).ear_history er = [er] := by
    show deque_append (max 1 sw).toNat [] er = [er]
    simp only [deque_append, List.nil_append, List.length_cons, List.length_nil]
    have : 0 + 1 - (max 1 sw).toNat = 0 := by omega
    rw [this]
    rfl
  refine ⟨rfl, hone, ?_, ?_⟩
  · rw [process_frame_fst_history, hhist]
  · rw [smoothed_ear, hhist]
    simp

/-- C8: the smoothing window never exceeds its capacity, evicts the
oldest sample FIFO when appended to at capacity, is what every
face-detected frame updates, and the smoothed EAR is the arithmetic mean
of the window's contents (over however many samples it holds). -/
theorem smoothing_window_props (t : EyeTracker) (er ct : ℚ)
    (hw : 1 ≤ t.smooth_window) :
    (process_frame t (some er) ct).1.ear_history =
      deque_append t.smooth_window t.ear_history er ∧
    (∀ (n : ℕ) (xs : List ℚ) (x : ℚ), (deque_append n xs x).length ≤ n) ∧
    (∀ (n : ℕ) (xs : List ℚ) (x : ℚ), xs.length = n → 1 ≤ n →
      deque_append n xs x = xs.tail ++ [x]) ∧
    smoothed_ear t er =
      (deque_append t.smooth_window t.ear_history er).sum /
        ((deque_append t.smooth_window t.ear_history er).length : ℚ) := by
  refine ⟨process_frame_fst_history t er ct, ?_, ?_, ?_⟩
  · intro n xs x
    rw [deque_append_length]
    omega
  · intro n xs x hlen hn
    cases xs with
    | nil =>
      simp only [List.length_nil] at hlen
      omega
    | cons a as =>
      have hd : ((a :: as) ++ [x]).length - n = 1 := by
        simp only [List.length_append, List.length_cons, List.length_nil]
        simp only [List.length_cons] at hlen
        omega
      show ((a :: as) ++ [x]).drop (((a :: as) ++ [x]).length - n) =
        (a :: as).tail ++ [x]
      rw [hd]
      rfl
  · have hpos : 0 < (deque_append t.smooth_window t.ear_history er).length := by
      rw [deque_append_length]
      omega
    simp only [smoothed_ear]
    rw [if_neg (List.length_pos.mp hpos)]

/-- C8, witness. -/
theorem smoothing_window_props_w :
    (process_frame t_wit (some 3) 0).1.ear_history =
      deque_append t_wit.smooth_window t_wit.ear_history 3 ∧
    (deque_append 2 [5, 7] 9).length ≤ 2 ∧
    deque_append 2 [5, 7] 9 = [7, 9] ∧
    smoothed_ear t_wit 3 =
      (deque_append t_wit.smooth_window t_wit.ear_history 3).sum /
        ((deque_append t_wit.smooth_window t_wit.ear_history 3).length : ℚ) := by
  obtain ⟨h1, h2, h3, h4⟩ :=
    smoothing_window_props t_wit 3 0 (by with_unfolding_all decide)
  exact ⟨h1, h2 2 [5, 7] 9, by rw [h3 2 [5, 7] 9 rfl (by decide)]; rfl, h4⟩

/-- C9: the streak counters are never simultaneously positive — the
invariant holds at construction and is preserved by every frame (with or
without a detected face) and by `reset_session`. -/
theorem streak_invariant_preserved :
    (∀ (thr mbi hd : ℚ) (cf ofr : ℕ) (sw : ℤ),
      streak_inv (EyeTracker.init thr cf mbi ofr hd sw)) ∧
    (∀ (t : EyeTracker) (obs : Option ℚ) (ct : ℚ),
      streak_inv t → streak_inv (process_frame t obs ct).1) ∧
    (∀ (t : EyeTracker) (now : ℚ),
      streak_inv t → streak_inv (reset_session t now)) := by
  refine ⟨fun _ _ _ _ _ _ => Or.inl rfl, ?_, fun t now h => h⟩
  intro t obs ct h
  cases obs with
  | none => exact h
  | some er =>
    simp only [process_frame, process_ear]
    split_ifs <;>
      first
        | exact Or.inr rfl
        | exact Or.inl rfl
        | exact h

/-- C9, witness. -/
theorem streak_invariant_preserved_w :
    streak_inv (process_frame t_wit (some 1) 0).1 ∧
    streak_inv (reset_session t_wit 0) :=
  ⟨streak_invariant_preserved.2.1 t_wit (some 1) 0 (Or.inl rfl),
    streak_invariant_preserved.2.2 t_wit 0 (Or.inl rfl)⟩

/-- C6: a frame whose smoothed EAR lies strictly inside the hysteresis
dead zone changes nothing but the smoothing window and reports no blink;
consequently any number of consecutive such frames leaves `blink_count`,
`eye_closed` and both streak counters at their pre-call values. -/
theorem dead_zone_preserves_state (t : EyeTracker) (frames : List (ℚ × ℚ))
    (h : runInDeadZone t frames = true) :
    (runFrames t frames).blink_count = t.blink_count ∧
    (runFrames t frames).eye_closed = t.eye_closed ∧
    (runFrames t frames).closed_frames = t.closed_frames ∧
    (runFrames t frames).open_frames = t.open_frames ∧
    (∀ er ct : ℚ, t.ear_threshold < smoothed_ear t er →
      smoothed_ear t er < t.open_threshold →
      (process_frame t (some er) ct).2.blink_detected = false ∧
      (process_frame t (some er) ct).1 =
        { t with ear_history := deque_append t.smooth_window t.ear_history er }) := by
  have per : ∀ (t : EyeTracker) (er ct : ℚ),
      t.ear_threshold < smoothed_ear t er → smoothed_ear t er < t.open_threshold →
      process_frame t (some er) ct =
        ({ t with ear_history := deque_append t.smooth_window t.ear_history er },
          mkResult
            { t with ear_history := deque_append t.smooth_window t.ear_history er }
            false ct) :=
    fun t er ct h1 h2 =>
      process_frame_dead t er ct (not_lt.mpr (le_of_lt h1)) (not_lt.mpr (le_of_lt h2))
  have main : ∀ (frames : List (ℚ × ℚ)) (t : EyeTracker),
      runInDeadZone t frames = true →
      (runFrames t frames).blink_count = t.blink_count ∧
      (runFrames t frames).eye_closed = t.eye_closed ∧
      (runFrames t frames).closed_frames = t.closed_frames ∧
      (runFrames t frames).open_frames = t.open_frames := by
    intro frames
    induction frames with
    | nil => exact fun t _ => ⟨rfl, rfl, rfl, rfl⟩
    | cons f rest ih =>
      obtain ⟨er, ct⟩ := f
      intro t hf
      simp only [runInDeadZone, Bool.and_eq_true, decide_eq_true_eq] at hf
      obtain ⟨⟨h1, h2⟩, hrest⟩ := hf
      have hstep := per t er ct h1 h2
      rw [hstep] at hrest
      simp only [runFrames]
      rw [hstep]
      exact ih _ hrest
  refine ⟨(main frames t h).1, (main frames t h).2.1, (main frames t h).2.2.1,
    (main frames t h).2.2.2, fun er ct h1 h2 => by rw [per t er ct h1 h2]; exact ⟨rfl, rfl⟩⟩

/-- C6, witness. -/
theorem dead_zone_preserves_state_w :
    (runFrames t_dead [(2, 0), (2, 1)]).blink_count = t_dead.blink_count ∧
    (runFrames t_dead [(2, 0), (2, 1)]).eye_closed = t_dead.eye_closed ∧
    (runFrames t_dead [(2, 0), (2, 1)]).closed_frames = t_dead.closed_frames ∧
    (runFrames t_dead [(2, 0), (2, 1)]).open_frames = t_dead.open_frames ∧
    (process_frame t_dead (some 2) 0).2.blink_detected = false ∧
    (process_frame t_dead (some 2) 0).1 =
      { t_dead with ear_history := deque_append t_dead.smooth_window t_dead.ear_history 2 } := by
  obtain ⟨h1, h2, h3, h4, h5⟩ :=
    dead_zone_preserves_state t_dead [(2, 0), (2, 1)] (by with_unfolding_all decide)
  obtain ⟨h6, h7⟩ := h5 2 0 (by with_unfolding_all decide) (by with_unfolding_all decide)
  exact ⟨h1, h2, h3, h4, h6, h7⟩

lemma runWithin_blink_const (lo hi : ℚ) :
    ∀ (frames : List (ℚ × ℚ)) (t : EyeTracker), hi ≤ t.open_threshold →
      runWithin lo hi t frames = true →
      (runFrames t frames).blink_count = t.blink_count := by
  intro frames
  induction frames with
  | nil => exact fun t _ _ => rfl
  | cons f rest ih =>
    obtain ⟨er, ct⟩ := f
    intro t hhi hf
    simp only [runWithin, Bool.and_eq_true, decide_eq_true_eq] at hf
    obtain ⟨⟨_, hs⟩, hrest⟩ := hf
    have hno : ¬ t.open_threshold < smoothed_ear t er := not_lt.mpr (le_trans hs hhi)
    obtain ⟨hb, ho⟩ := process_frame_not_open t er ct hno
    simp only [runFrames]
    rw [ih (process_frame t (some er) ct).1 (by rw [ho]; exact hhi) hrest, hb]

/-- C7: any sequence of frames whose smoothed EAR stays within `ε` of the
close threshold, for some `ε` below the hysteresis delta, never increases
`blink_count`: the open threshold is never exceeded, so the blink branch
is never taken. -/
theorem oscillation_never_blinks (t : EyeTracker) (frames : List (ℚ × ℚ))
    (ε : ℚ)
    (hthr : t.open_threshold = t.ear_threshold + t.hysteresis_delta)
    (hε : ε < t.hysteresis_delta)
    (hosc : runWithin (t.ear_threshold - ε) (t.ear_threshold + ε) t frames = true) :
    (runFrames t frames).blink_count = t.blink_count := by
  refine runWithin_blink_const (t.ear_threshold - ε) (t.ear_threshold + ε)
    frames t ?_ hosc
  rw [hthr]
  linarith

/-- C7, witness. -/
theorem oscillation_never_blinks_w :
    (runFrames t_osc [(3/2, 0), (5/2, 1)]).blink_count = t_osc.blink_count :=
  oscillation_never_blinks t_osc [(3/2, 0), (5/2, 1)] (1/2)
    (by with_unfolding_all decide) (by with_unfolding_all decide)
    (by with_unfolding_all decide)

set_option maxRecDepth 100000 in
/-- C1: on a frame whose smoothed EAR exceeds the open threshold while
the eye is classified closed and the open streak (counting this frame)
has reached `open_frames_required`: if the refractory test passes the
blink is counted, `last_blink_time` is stamped and the frame reports
`blink_detected`; if it fails both stay unchanged and no blink is
reported; either way the eye is reclassified open.  Consequently the
concrete two-blink-sequence run separated by less than the refractory
interval counts exactly one blink yet ends with the eye open. -/
theorem blink_confirm_and_refractory (t : EyeTracker) (er ct : ℚ)
    (hwf : t.ear_threshold ≤ t.open_threshold)
    (hear : t.open_threshold < smoothed_ear t er)
    (hcl : t.eye_closed = true)
    (hstreak : t.open_frames_required ≤ t.open_frames + 1) :
    (refractory_ok t ct = true →
      (process_frame t (some er) ct).1.blink_count = t.blink_count + 1 ∧
      (process_frame t (some er) ct).1.last_blink_time = some ct ∧
      (process_frame t (some er) ct).2.blink_detected = true) ∧
    (refractory_ok t ct = false →
      (process_frame t (some er) ct).1.blink_count = t.blink_count ∧
      (process_frame t (some er) ct).1.last_blink_time = t.last_blink_time ∧
      (process_frame t (some er) ct).2.blink_detected = false) ∧
    (process_frame t (some er) ct).1.eye_closed = false ∧
    (runFrames (EyeTracker.init (21/100) 2 (1/2) 2 (3/100) 1) two_blink_seq).blink_count
      = 1 ∧
    (runFrames (EyeTracker.init (21/100) 2 (1/2) 2 (3/100) 1) two_blink_seq).eye_closed
      = false := by
  have h1 : ¬ smoothed_ear t er < t.ear_threshold :=
    not_lt.mpr (le_trans hwf (le_of_lt hear))
  refine ⟨?_, ?_, ?_, ?_, ?_⟩
  · intro hrf
    simp only [process_frame, process_ear]
    rw [if_neg h1, if_pos hear]
    rw [if_pos (And.intro hcl hstreak), if_pos hrf]
    exact ⟨rfl, rfl, rfl⟩
  · intro hrf
    simp only [process_frame, process_ear]
    rw [if_neg h1, if_pos hear]
    rw [if_pos (And.intro hcl hstreak), if_neg (by simp [hrf])]
    exact ⟨rfl, rfl, rfl⟩
  · simp only [process_frame, process_ear]
    rw [if_neg h1, if_pos hear]
    rw [if_pos (And.intro hcl hstreak)]
    cases hrf : refractory_ok t ct
    · rw [if_neg (by simp)]
    · rw [if_pos rfl]
  · with_unfolding_all decide
  · with_unfolding_all decide

set_option maxRecDepth 100000 in
/-- C1, witness. -/
theorem blink_confirm_and_refractory_w :
    (refractory_ok t_wit 0 = true →
      (process_frame t_wit (some 3) 0).1.blink_count = t_wit.blink_count + 1 ∧
      (process_frame t_wit (some 3) 0).1.last_blink_time = some 0 ∧
      (process_frame t_wit (some 3) 0).2.blink_detected = true) ∧
    (refractory_ok t_wit 0 = false →
      (process_frame t_wit (some 3) 0).1.blink_count = t_wit.blink_count ∧
      (process_frame t_wit (some 3) 0).1.last_blink_time = t_wit.last_blink_time ∧
      (process_frame t_wit (some 3) 0).2.blink_detected = false) ∧
    (process_frame t_wit (some 3) 0).1.eye_closed = false ∧
    (runFrames (EyeTracker.init (21/100) 2 (1/2) 2 (3/100) 1) two_blink_seq).blink_count
      = 1 ∧
    (runFrames (EyeTracker.init (21/100) 2 (1/2) 2 (3/100) 1) two_blink_seq).eye_closed
      = false :=
  blink_confirm_and_refractory t_wit 3 0 (by with_unfolding_all decide)
    (by with_unfolding_all decide) (by decide) (by decide)

end EyeTrackerSpec
